import Mathlib

/-!
Verification development for the machineServer session-and-coordination core.

The Go source is shallowly embedded:
  * pure data structures (`internal/model`) become Lean structures;
  * Go `map[string]T` values become association lists with `mapFind?`,
    `mapInsert`, `mapErase` (Go-map assignment/lookup/delete semantics);
  * Go `int` / `int64` become `Int` with an explicit two's-complement wrap
    (`wrap64`) applied exactly where the source performs 64-bit arithmetic;
  * fallible calls return `Except GoErr`;
  * effectful collaborators (backend adapters reached over the monitor
    channel, the gorm-backed durable store) are an explicit environment of
    result oracles, and every outgoing adapter invocation is recorded in a
    trace so that dispatch claims are statements about the trace;
  * goroutine fan-out in `SyncTime` is serialized: all member invocations
    are dispatched (none is cancelled by a sibling failure) and the first
    error in member order stands for the first error received.
-/

namespace MachineServer

/-- Go `error` values, identified by their message text. -/
abbrev GoErr := String

/-- Two's-complement wrap of a mathematical integer into the `int64` range,
modelling Go 64-bit integer overflow. -/
def wrap64 (n : Int) : Int := (n + 2 ^ 63) % 2 ^ 64 - 2 ^ 63

theorem wrap64_eq_of_bounds (n : Int) (hlo : -(2 ^ 63) ≤ n) (hhi : n < 2 ^ 63) :
    wrap64 n = n := by
  unfold wrap64
  have h0 : (0 : Int) ≤ n + 2 ^ 63 := by linarith
  have h1 : n + 2 ^ 63 < 2 ^ 64 := by norm_num at hhi ⊢; linarith
  rw [Int.emod_eq_of_lt h0 h1]
  ring

/-! ### Association lists standing for Go maps -/

/-- Lookup in a Go map (`m[k]`). -/
def mapFind? {α : Type} (m : List (String × α)) (k : String) : Option α :=
  match m.find? (fun p => p.1 == k) with
  | some p => some p.2
  | none => none

/-- Deletion from a Go map (`delete(m, k)`). -/
def mapErase {α : Type} (m : List (String × α)) (k : String) : List (String × α) :=
  m.filter (fun p => !(p.1 == k))

/-- Assignment into a Go map (`m[k] = v`). -/
def mapInsert {α : Type} (m : List (String × α)) (k : String) (v : α) :
    List (String × α) :=
  (k, v) :: mapErase m k

theorem mapFind?_insert_self {α : Type} (m : List (String × α)) (k : String) (v : α) :
    mapFind? (mapInsert m k v) k = some v := by
  simp [mapFind?, mapInsert, List.find?]

theorem mapFind?_erase_self {α : Type} (m : List (String × α)) (k : String) :
    mapFind? (mapErase m k) k = none := by
  have h : (mapErase m k).find? (fun p => p.1 == k) = none := by
    rw [List.find?_eq_none]
    intro x hx
    have hmem := List.of_mem_filter hx
    simpa using hmem
  simp [mapFind?, h]

theorem length_mapErase_le {α : Type} (m : List (String × α)) (k : String) :
    (mapErase m k).length ≤ m.length :=
  List.length_filter_le _ m

theorem length_mapInsert_le {α : Type} (m : List (String × α)) (k : String) (v : α) :
    (mapInsert m k v).length ≤ m.length + 1 := by
  simpa [mapInsert] using Nat.succ_le_succ (length_mapErase_le m k)

/-! ### Backend-adapter level model

`internal/adapter/openocd.go` and the QEMU half of `internal/adapter/renode.go`.
An adapter's per-backend session map carries the two allocated ports (the
child-process handle is an OS resource and is not represented).  A monitor
command (`sendTelnetCommand`, or a direct `net.Dial` + write for QEMU) is:
look the session up, then dial-and-write, whose outcome the environment
oracle `MonEnv` decides; the written command line is recorded in the trace. -/

/-- Per-session adapter bookkeeping (`openocdSession` / `qemuSession`):
the allocated debug-bridge port and monitor (telnet) port. -/
structure AdpSession where
  gdbPort : Int
  monitorPort : Int
deriving DecidableEq, Repr

/-- Result oracle for one monitor-channel command: given the session id and
the command text, `none` means the dial and write succeeded, `some e` is the
transport error returned by the source. -/
def MonEnv : Type := String → String → Option GoErr

/-- Caller-supplied cancellation handle (`context.Context`): whether the
signal fires during a sleep phase, and the error `ctx.Err()` reports then. -/
structure Ctx where
  cancelled : Bool
  err : GoErr
deriving DecidableEq, Repr

/-- An adapter-level call result paired with the monitor commands it wrote. -/
abbrev MonOutcome := Except GoErr Unit × List String

namespace OpenOCD

/-- OpenOCDAdapter.sendTelnetCommand: look the session up in the adapter's
map; unknown sessions fail; otherwise one short-lived telnet connection
writes `cmd`, with the transport outcome decided by the environment. -/
def sendTelnetCommand (env : MonEnv) (sessions : List (String × AdpSession))
    (sessionID cmd : String) : MonOutcome :=
  match mapFind? sessions sessionID with
  | none => (.error ("session not found: " ++ sessionID), [])
  | some _ =>
    match env sessionID cmd with
    | some e => (.error e, [cmd])
    | none => (.ok (), [cmd])

/-- OpenOCDAdapter.Step: the source sends the fixed telnet command `"step"`;
the requested instruction count `steps` is not used. -/
def Step (env : MonEnv) (sessions : List (String × AdpSession))
    (sessionID : String) (steps : Int) : MonOutcome :=
  sendTelnetCommand env sessions sessionID "step"

/-- OpenOCDAdapter.ResumeExecution: telnet command `"resume"`. -/
def ResumeExecution (env : MonEnv) (sessions : List (String × AdpSession))
    (sessionID : String) : MonOutcome :=
  sendTelnetCommand env sessions sessionID "resume"

/-- OpenOCDAdapter.PauseExecution: telnet command `"halt"`. -/
def PauseExecution (env : MonEnv) (sessions : List (String × AdpSession))
    (sessionID : String) : MonOutcome :=
  sendTelnetCommand env sessions sessionID "halt"

/-- OpenOCDAdapter.CreateSnapshot: unconditionally unsupported. -/
def CreateSnapshot (sessionID snapshotPath : String) : Except GoErr Unit :=
  .error "snapshots not supported by OpenOCD backend"

/-- OpenOCDAdapter.RestoreSnapshot: unconditionally unsupported. -/
def RestoreSnapshot (sessionID snapshotPath : String) : Except GoErr Unit :=
  .error "snapshots not supported by OpenOCD backend"

/-- OpenOCDAdapter.InjectEvent: unconditionally unsupported.  The free-form
key/value payload is a list of string pairs (its contents are never read). -/
def InjectEvent (sessionID eventType : String)
    (data : List (String × String)) : Except GoErr Unit :=
  .error "event injection not supported for OpenOCD backend"

/-- OpenOCDAdapter.RunForTime: Resume, then a cancellable sleep of
`duration`, then Pause.  If the cancellation signal fires during the sleep
the call returns `ctx.Err()` without pausing. -/
def RunForTime (env : MonEnv) (ctx : Ctx) (sessions : List (String × AdpSession))
    (sessionID : String) (duration : Int) : MonOutcome :=
  match ResumeExecution env sessions sessionID with
  | (.error e, tr) => (.error e, tr)
  | (.ok _, tr) =>
    if ctx.cancelled then (.error ctx.err, tr)
    else
      match PauseExecution env sessions sessionID with
      | (res, tr2) => (res, tr ++ tr2)

end OpenOCD

namespace Renode

/-- RenodeAdapter.Step: the source sends `step <count>` over the monitor,
forwarding the requested instruction count natively. -/
def Step (env : MonEnv) (sessions : List (String × AdpSession))
    (sessionID : String) (steps : Int) : MonOutcome :=
  match mapFind? sessions sessionID with
  | none => (.error ("session not found: " ++ sessionID), [])
  | some _ =>
    match env sessionID ("step " ++ toString steps) with
    | some e => (.error e, ["step " ++ toString steps])
    | none => (.ok (), ["step " ++ toString steps])

end Renode

namespace QEMU

/-- QEMUAdapter.ExecuteProgram: look the session up, dial the monitor and
write `cont\n`. -/
def ExecuteProgram (env : MonEnv) (sessions : List (String × AdpSession))
    (sessionID : String) : MonOutcome :=
  match mapFind? sessions sessionID with
  | none => (.error ("session not found: " ++ sessionID), [])
  | some _ =>
    match env sessionID "cont\n" with
    | some e => (.error e, ["cont\n"])
    | none => (.ok (), ["cont\n"])

/-- QEMUAdapter.ResumeExecution: delegates to ExecuteProgram. -/
def ResumeExecution (env : MonEnv) (sessions : List (String × AdpSession))
    (sessionID : String) : MonOutcome :=
  ExecuteProgram env sessions sessionID

/-- QEMUAdapter.PauseExecution: look the session up, dial the monitor and
write `stop\n`. -/
def PauseExecution (env : MonEnv) (sessions : List (String × AdpSession))
    (sessionID : String) : MonOutcome :=
  match mapFind? sessions sessionID with
  | none => (.error ("session not found: " ++ sessionID), [])
  | some _ =>
    match env sessionID "stop\n" with
    | some e => (.error e, ["stop\n"])
    | none => (.ok (), ["stop\n"])

/-- QEMUAdapter.Step: unconditionally unsupported through the monitor. -/
def Step (sessionID : String) (steps : Int) : Except GoErr Unit :=
  .error "step not supported for QEMU backend without GDB connection"

/-- QEMUAdapter.RunForTime: Resume, cancellable sleep, Pause — identical
shape to the OpenOCD variant. -/
def RunForTime (env : MonEnv) (ctx : Ctx) (sessions : List (String × AdpSession))
    (sessionID : String) (duration : Int) : MonOutcome :=
  match ResumeExecution env sessions sessionID with
  | (.error e, tr) => (.error e, tr)
  | (.ok _, tr) =>
    if ctx.cancelled then (.error ctx.err, tr)
    else
      match PauseExecution env sessions sessionID with
      | (res, tr2) => (res, tr ++ tr2)

end QEMU

/-! ### Board configuration and its JSON serialization

`internal/model`: `BoardConfig` with its nested structs, carrying Go
`encoding/json` struct tags.  JSON text is modelled as its parse tree
(`JValue`); `encoding/json`'s rendering of that tree to bytes is an external
collaborator.  `marshalBoardConfig` follows the struct tags (field names and
`omitempty`), `unmarshalBoardConfig` is Go unmarshalling into a zero-valued
struct: each tagged field is looked up by name and left at its zero value
when absent.  Go `uint64` becomes `Nat`, Go `int` becomes `Int`. -/

/-- A JSON document. -/
inductive JValue where
  | jstr (s : String)
  | jnum (n : Int)
  | jarr (xs : List JValue)
  | jobj (fields : List (String × JValue))

/-- ProcessorConfig: model identifier and frequency. -/
structure ProcessorConfig where
  model : String
  frequency : Int
deriving DecidableEq, Repr

/-- MemoryRegion: base address and size, Go `uint64`. -/
structure MemoryRegion where
  base : Nat
  size : Nat
deriving DecidableEq, Repr

/-- MemoryConfig: the flash and RAM regions. -/
structure MemoryConfig where
  flash : MemoryRegion
  ram : MemoryRegion
deriving DecidableEq, Repr

/-- PeripheralConfig: type tag (Go field `Type`, here `ptype`), name, base
address, interrupt index (`irq`, tagged omitempty). -/
structure PeripheralConfig where
  ptype : String
  name : String
  address : Nat
  irq : Int
deriving DecidableEq, Repr

/-- BoardConfig: optional predefined board name (omitempty), processor,
memory map, peripherals (omitempty). -/
structure BoardConfig where
  board : String
  processor : ProcessorConfig
  memory : MemoryConfig
  peripherals : List PeripheralConfig
deriving DecidableEq, Repr

def marshalProcessor (p : ProcessorConfig) : JValue :=
  .jobj [("model", .jstr p.model), ("frequency", .jnum p.frequency)]

def marshalRegion (r : MemoryRegion) : JValue :=
  .jobj [("base", .jnum r.base), ("size", .jnum r.size)]

def marshalMemory (m : MemoryConfig) : JValue :=
  .jobj [("flash", marshalRegion m.flash), ("ram", marshalRegion m.ram)]

def marshalPeripheral (p : PeripheralConfig) : JValue :=
  .jobj ([("type", .jstr p.ptype), ("name", .jstr p.name),
          ("address", .jnum p.address)] ++
         (if p.irq = 0 then [] else [("irq", .jnum p.irq)]))

/-- json.Marshal of a `*model.BoardConfig` (struct-tag field order,
`omitempty` on `board`, `irq` and `peripherals`). -/
def marshalBoardConfig (c : BoardConfig) : JValue :=
  .jobj ((if c.board = "" then [] else [("board", .jstr c.board)]) ++
         [("processor", marshalProcessor c.processor),
          ("memory", marshalMemory c.memory)] ++
         (if c.peripherals = [] then []
          else [("peripherals", .jarr (c.peripherals.map marshalPeripheral))]))

/-- Field lookup inside a JSON object; `none` on absent field or non-object. -/
def jfield (j : JValue) (k : String) : Option JValue :=
  match j with
  | .jobj fields => mapFind? fields k
  | _ => none

/-- Field lookup through an optional object. -/
def ofield (j : Option JValue) (k : String) : Option JValue :=
  match j with
  | some v => jfield v k
  | none => none

/-- Decode a JSON string, defaulting to the Go zero value `""`. -/
def jstrD (j : Option JValue) : String :=
  match j with
  | some (.jstr s) => s
  | _ => ""

/-- Decode a JSON number, defaulting to the Go zero value `0`. -/
def jnumD (j : Option JValue) : Int :=
  match j with
  | some (.jnum n) => n
  | _ => 0

/-- Decode a JSON number into a `uint64` field. -/
def jnatD (j : Option JValue) : Nat := (jnumD j).toNat

def unmarshalRegion (j : Option JValue) : MemoryRegion :=
  { base := jnatD (ofield j "base"), size := jnatD (ofield j "size") }

def unmarshalPeripheral (j : JValue) : PeripheralConfig :=
  { ptype := jstrD (jfield j "type"), name := jstrD (jfield j "name"),
    address := jnatD (jfield j "address"), irq := jnumD (jfield j "irq") }

/-- json.Unmarshal of a board-configuration blob into a zero-valued
`model.BoardConfig`. -/
def unmarshalBoardConfig (j : JValue) : BoardConfig :=
  { board := jstrD (jfield j "board"),
    processor := { model := jstrD (ofield (jfield j "processor") "model"),
                   frequency := jnumD (ofield (jfield j "processor") "frequency") },
    memory := { flash := unmarshalRegion (ofield (jfield j "memory") "flash"),
                ram := unmarshalRegion (ofield (jfield j "memory") "ram") },
    peripherals :=
      match jfield j "peripherals" with
      | some (.jarr xs) => xs.map unmarshalPeripheral
      | _ => [] }

/-! ### Session-service level model

`Service` from the service package: the in-memory index `sessions`, the
registered `adapters` (a set of backend tags), the session cap from
configuration, and the durable store's `sessions` and co-sim tables as pure
association lists (the relational store itself is an external collaborator;
its write outcomes on the create/delete paths are decided by the
environment).  Timestamps, child PIDs and the owning principal are
wall-clock/OS data and are omitted from the record. -/

/-- model.Session: the session record (identifier, name, backend tag,
serialized board-configuration blob, lifecycle state, allocated ports). -/
structure Session where
  id : String
  name : String
  backend : String
  boardConfig : Option JValue
  state : String
  gdbPort : Int
  monitorPort : Int

/-- model.CoSimComponent: a member of a co-simulation group. -/
structure CoSimComponent where
  id : String
  coSimID : String
  ctype : String
  config : String
  status : String
  sessionID : String
deriving DecidableEq, Repr

/-- model.CoSimSession: a co-simulation group with its accumulated step and
virtual-time counters (Go `int64`). -/
structure CoSimSession where
  id : String
  status : String
  syncCount : Int
  timeNS : Int
  components : List CoSimComponent
deriving DecidableEq, Repr

/-- One outgoing adapter invocation made by the Service (trace event):
method name, backend tag, session identifier, and the integer argument
(step count or duration; `0` where the method takes none). -/
structure AdapterCall where
  method : String
  backend : String
  sessionID : String
  arg : Int
deriving DecidableEq, Repr

/-- The Service state: session cap, registered backend tags, in-memory
session index, durable session table, durable co-sim table. -/
structure Svc where
  maxSessions : Nat
  adapters : List String
  sessions : List (String × Session)
  db : List (String × Session)
  cosims : List (String × CoSimSession)

/-- Result oracles for the Service's effectful collaborators: adapter
StartSession (failing, or succeeding with the ports it allocated into the
record), adapter StopSession and RunForTime outcomes, and the durable
store's create/delete/save outcomes keyed by the record identifier
(`dbSave` decides `s.db.Save(&session)` on the co-sim sync paths).
Per-member Step results are absent because `SyncStep` discards them
(`_ = adp.Step(...)` in the source). -/
structure Env where
  startSession : String → String → Except GoErr (Int × Int)
  stopSession : String → String → Option GoErr
  runForTime : String → String → Int → Option GoErr
  dbCreate : String → Option GoErr
  dbDelete : String → Option GoErr
  dbSave : String → Option GoErr

/-- Outcome of one Service operation: the returned value or error, the
post-state, and the adapter invocations dispatched along the way. -/
structure SvcOutcome (α : Type) where
  result : Except GoErr α
  svc : Svc
  trace : List AdapterCall

/-- Service.CreateSession: refuse at the cap; resolve the adapter; marshal
the board configuration into the record; StartSession; mark Running; commit
the durable record, with best-effort StopSession compensation and the
original error on commit failure; insert into the in-memory index.  The
minted UUID is the `newID` argument. -/
def CreateSession (env : Env) (svc : Svc) (newID name backend : String)
    (boardConfig : Option BoardConfig) : SvcOutcome Session :=
  if svc.maxSessions ≤ svc.sessions.length then
    ⟨.error "maximum number of sessions reached", svc, []⟩
  else if svc.adapters.contains backend then
    let sess : Session :=
      { id := newID, name := name, backend := backend,
        boardConfig := boardConfig.map marshalBoardConfig,
        state := "created", gdbPort := 0, monitorPort := 0 }
    match env.startSession backend newID with
    | .error e =>
      ⟨.error ("failed to start session: " ++ e), svc,
       [⟨"StartSession", backend, newID, 0⟩]⟩
    | .ok (gp, mp) =>
      let sess2 := { sess with state := "running", gdbPort := gp, monitorPort := mp }
      match env.dbCreate newID with
      | some e =>
        ⟨.error ("failed to save session: " ++ e), svc,
         [⟨"StartSession", backend, newID, 0⟩, ⟨"StopSession", backend, newID, 0⟩]⟩
      | none =>
        ⟨.ok sess2,
         { svc with db := mapInsert svc.db newID sess2,
                    sessions := mapInsert svc.sessions newID sess2 },
         [⟨"StartSession", backend, newID, 0⟩]⟩
  else ⟨.error ("backend not supported: " ++ backend), svc, []⟩

/-- Service.GetSession: memory first, durable store as fallback, typed
not-found error otherwise. -/
def GetSession (svc : Svc) (sessionID : String) : Except GoErr Session :=
  match mapFind? svc.sessions sessionID with
  | some s => .ok s
  | none =>
    match mapFind? svc.db sessionID with
    | some s => .ok s
    | none => .error ("session not found: " ++ sessionID)

/-- Tail of Service.DeleteSession: delete the durable record (the in-memory
deletion performed by the caller stands even if this fails). -/
def deleteFromDB (env : Env) (svc : Svc) (sessionID : String)
    (tr : List AdapterCall) : SvcOutcome Unit :=
  match env.dbDelete sessionID with
  | some e => ⟨.error ("failed to delete session from database: " ++ e), svc, tr⟩
  | none => ⟨.ok (), { svc with db := mapErase svc.db sessionID }, tr⟩

/-- Service.DeleteSession: if the session is in memory and its adapter is
registered, StopSession (propagating its error before any deletion);
remove from the index; then delete the durable record. -/
def DeleteSession (env : Env) (svc : Svc) (sessionID : String) : SvcOutcome Unit :=
  match mapFind? svc.sessions sessionID with
  | some sess =>
    if svc.adapters.contains sess.backend then
      match env.stopSession sess.backend sessionID with
      | some e =>
        ⟨.error ("failed to stop session: " ++ e), svc,
         [⟨"StopSession", sess.backend, sessionID, 0⟩]⟩
      | none =>
        deleteFromDB env { svc with sessions := mapErase svc.sessions sessionID }
          sessionID [⟨"StopSession", sess.backend, sessionID, 0⟩]
    else
      deleteFromDB env { svc with sessions := mapErase svc.sessions sessionID }
        sessionID []
  | none => deleteFromDB env svc sessionID []

/-- The members a co-sim sync scheme dispatches to: those whose bound
session identifier is set, resolves in the in-memory index, and whose
session's backend has a registered adapter; yields (backend, session id)
per the loop bodies of SyncStep and SyncTime. -/
def boundTargets (svc : Svc) (comps : List CoSimComponent) :
    List (String × String) :=
  comps.filterMap fun c =>
    if c.sessionID = "" then none
    else
      match mapFind? svc.sessions c.sessionID with
      | some sess =>
        if svc.adapters.contains sess.backend then some (sess.backend, sess.id)
        else none
      | none => none

/-- Service.SyncStep: require the group exist and be Running; call Step with
the requested count once per dispatchable member, discarding per-member
errors; add the count to the group's step counter and `steps * 1000`
nanoseconds (1 µs per step) to its virtual time, once per call; then
`return s.db.Save(&session).Error` — on save failure that error is
returned and the durable record keeps its old counters. -/
def SyncStep (env : Env) (svc : Svc) (sessionID : String) (steps : Int) :
    SvcOutcome Unit :=
  match mapFind? svc.cosims sessionID with
  | none => ⟨.error "record not found", svc, []⟩
  | some g =>
    if g.status = "running" then
      let calls := (boundTargets svc g.components).map
        (fun t => AdapterCall.mk "Step" t.1 t.2 steps)
      let g2 := { g with syncCount := wrap64 (g.syncCount + steps),
                         timeNS := wrap64 (g.timeNS + wrap64 (steps * 1000)) }
      match env.dbSave sessionID with
      | some e => ⟨.error e, svc, calls⟩
      | none =>
        ⟨.ok (), { svc with cosims := mapInsert svc.cosims sessionID g2 }, calls⟩
    else ⟨.error "session is not running", svc, []⟩

/-- Service.SyncTime: require the group exist and be Running; fan
RunForTime(duration) out to every dispatchable member (all are launched, a
failing member does not cancel its siblings); if any member failed return
the first reported error without updating anything; otherwise add the
duration to the group's virtual time once and
`return s.db.Save(&session).Error` — on save failure that error is
returned and the durable record keeps its old counter. -/
def SyncTime (env : Env) (svc : Svc) (sessionID : String) (duration : Int) :
    SvcOutcome Unit :=
  match mapFind? svc.cosims sessionID with
  | none => ⟨.error "record not found", svc, []⟩
  | some g =>
    if g.status = "running" then
      let targets := boundTargets svc g.components
      let calls := targets.map (fun t => AdapterCall.mk "RunForTime" t.1 t.2 duration)
      match (targets.filterMap (fun t => env.runForTime t.1 t.2 duration)).head? with
      | some e => ⟨.error e, svc, calls⟩
      | none =>
        let g2 := { g with timeNS := wrap64 (g.timeNS + duration) }
        match env.dbSave sessionID with
        | some e => ⟨.error e, svc, calls⟩
        | none =>
          ⟨.ok (), { svc with cosims := mapInsert svc.cosims sessionID g2 }, calls⟩
    else ⟨.error "session is not running", svc, []⟩

/-- The Service operations that touch state, for reachability arguments. -/
inductive SvcOp where
  | createOp (env : Env) (newID name backend : String) (cfg : Option BoardConfig)
  | deleteOp (env : Env) (sessionID : String)
  | stepOp (env : Env) (sessionID : String) (steps : Int)
  | timeOp (env : Env) (sessionID : String) (duration : Int)

/-- The post-state of one Service operation. -/
def applyOp (svc : Svc) : SvcOp → Svc
  | .createOp env newID name backend cfg =>
    (CreateSession env svc newID name backend cfg).svc
  | .deleteOp env sessionID => (DeleteSession env svc sessionID).svc
  | .stepOp env sessionID steps => (SyncStep env svc sessionID steps).svc
  | .timeOp env sessionID duration => (SyncTime env svc sessionID duration).svc

/-- A sequence of Service operations applied in order. -/
def runOps (svc : Svc) (ops : List SvcOp) : Svc := ops.foldl applyOp svc

/-! ### Concrete fixtures used by witnesses -/

/-- A monitor environment in which every dial and write succeeds. -/
def monOk : MonEnv := fun _ _ => none

/-- One adapter session with allocated ports. -/
def demoAdpSessions : List (String × AdpSession) :=
  [("s1", { gdbPort := 1234, monitorPort := 4444 })]

/-- A cancellation handle that fires during the sleep phase. -/
def ctxCancelled : Ctx := { cancelled := true, err := "context canceled" }

/-- A cancellation handle that never fires. -/
def ctxLive : Ctx := { cancelled := false, err := "context canceled" }

/-- A service environment in which every collaborator succeeds (the mock
adapter of the source's test suite, which allocates ports 1234/5678). -/
def envOk : Env :=
  { startSession := fun _ _ => .ok (1234, 5678),
    stopSession := fun _ _ => none,
    runForTime := fun _ _ _ => none,
    dbCreate := fun _ => none,
    dbDelete := fun _ => none,
    dbSave := fun _ => none }

/-- A live session record bound to the QEMU backend. -/
def demoSession : Session :=
  { id := "A", name := "node-a", backend := "qemu", boardConfig := none,
    state := "running", gdbPort := 1234, monitorPort := 5678 }

/-- A co-sim member whose bound session is `demoSession`. -/
def demoComponent : CoSimComponent :=
  { id := "m1", coSimID := "G", ctype := "qemu", config := "",
    status := "initialized", sessionID := "A" }

/-- A running co-sim group with the single member `demoComponent`. -/
def demoGroup : CoSimSession :=
  { id := "G", status := "running", syncCount := 0, timeNS := 0,
    components := [demoComponent] }

/-- A service state holding one live session and one running co-sim group. -/
def demoSvc : Svc :=
  { maxSessions := 10, adapters := ["qemu"],
    sessions := [("A", demoSession)], db := [("A", demoSession)],
    cosims := [("G", demoGroup)] }

/-- The capacity-cap scenario state: cap 1, one session already live. -/
def demoSvcFull : Svc := { demoSvc with maxSessions := 1 }

/-- A fresh service state with no sessions. -/
def emptySvc : Svc :=
  { maxSessions := 10, adapters := ["qemu"], sessions := [], db := [],
    cosims := [] }

/-! ### Claim theorems -/

/-- Claim C4 (code bug): for the Hardware-Debug (OpenOCD) variant, `Step`
does NOT natively step by the requested count — the dispatched telnet
command is the constant `"step"`, independent of `steps` (a single
instruction step), so `Step` at count 5 is indistinguishable from `Step`
at count 1, while the Renode variant forwards the count natively as
`step 5`.  This contradicts the adapter contract (`Step executes a number
of instructions`) and the spec's `Step N instructions`. -/
theorem openocd_step_ignores_count :
    OpenOCD.Step monOk demoAdpSessions "s1" 5 = (.ok (), ["step"]) ∧
    OpenOCD.Step monOk demoAdpSessions "s1" 5 =
      OpenOCD.Step monOk demoAdpSessions "s1" 1 ∧
    Renode.Step monOk demoAdpSessions "s1" 5 = (.ok (), ["step 5"]) ∧
    ∀ (env : MonEnv) (sessions : List (String × AdpSession)) (sid : String)
      (n m : Int), OpenOCD.Step env sessions sid n = OpenOCD.Step env sessions sid m :=
  ⟨rfl, rfl, rfl, fun _ _ _ _ _ => rfl⟩

/-- Claim C5: unsupported operations return an explicit unsupported error
and never succeed: the QEMU variant's Step, and the OpenOCD variant's
CreateSnapshot, RestoreSnapshot and InjectEvent, each fail for every
session identifier and arguments. -/
theorem unsupported_ops_always_error :
    ∀ (sid path ev : String) (n : Int) (data : List (String × String)),
      QEMU.Step sid n =
        .error "step not supported for QEMU backend without GDB connection" ∧
      OpenOCD.CreateSnapshot sid path =
        .error "snapshots not supported by OpenOCD backend" ∧
      OpenOCD.RestoreSnapshot sid path =
        .error "snapshots not supported by OpenOCD backend" ∧
      OpenOCD.InjectEvent sid ev data =
        .error "event injection not supported for OpenOCD backend" :=
  fun _ _ _ _ _ => ⟨rfl, rfl, rfl, rfl⟩

/-- Claim C9: for the QEMU and OpenOCD variants, when RunForTime is called
on a known session, the resume command goes through and the caller's
cancellation signal fires during the sleep phase, the call returns the
cancellation error `ctx.Err()` rather than success. -/
theorem runForTime_cancelled_returns_ctx_err (envQ envO : MonEnv) (ctx : Ctx)
    (qs os : List (String × AdpSession)) (sidQ sidO : String) (dQ dO : Int)
    (sQ sO : AdpSession)
    (hq : mapFind? qs sidQ = some sQ) (ho : mapFind? os sidO = some sO)
    (hrq : envQ sidQ "cont\n" = none) (hro : envO sidO "resume" = none)
    (hc : ctx.cancelled = true) :
    (QEMU.RunForTime envQ ctx qs sidQ dQ).1 = .error ctx.err ∧
    (OpenOCD.RunForTime envO ctx os sidO dO).1 = .error ctx.err := by
  constructor
  · simp [QEMU.RunForTime, QEMU.ResumeExecution, QEMU.ExecuteProgram, hq, hrq, hc]
  · simp [OpenOCD.RunForTime, OpenOCD.ResumeExecution, OpenOCD.sendTelnetCommand,
          ho, hro, hc]

/-- Witness for C9 at the concrete fixture. -/
theorem runForTime_cancelled_returns_ctx_err_witness :
    (QEMU.RunForTime monOk ctxCancelled demoAdpSessions "s1" 1000000).1 =
      .error "context canceled" ∧
    (OpenOCD.RunForTime monOk ctxCancelled demoAdpSessions "s1" 1000000).1 =
      .error "context canceled" :=
  runForTime_cancelled_returns_ctx_err monOk monOk ctxCancelled
    demoAdpSessions demoAdpSessions "s1" "s1" 1000000 1000000
    { gdbPort := 1234, monitorPort := 4444 } { gdbPort := 1234, monitorPort := 4444 }
    rfl rfl rfl rfl rfl

/-- Claim C10 (frame effect): under the same setup, if the sleep is
cancelled the pause command (`stop\n` for QEMU, `halt` for OpenOCD) is
never dispatched — the trace is exactly the resume command, leaving the
target running; the pause command is dispatched exactly when the sleep
completes uncancelled. -/
theorem runForTime_cancel_skips_pause (envQ envO : MonEnv) (ctx : Ctx)
    (qs os : List (String × AdpSession)) (sidQ sidO : String) (dQ dO : Int)
    (sQ sO : AdpSession)
    (hq : mapFind? qs sidQ = some sQ) (ho : mapFind? os sidO = some sO)
    (hrq : envQ sidQ "cont\n" = none) (hro : envO sidO "resume" = none) :
    (ctx.cancelled = true →
      (QEMU.RunForTime envQ ctx qs sidQ dQ).2 = ["cont\n"] ∧
      (OpenOCD.RunForTime envO ctx os sidO dO).2 = ["resume"]) ∧
    (ctx.cancelled = false →
      (QEMU.RunForTime envQ ctx qs sidQ dQ).2 = ["cont\n", "stop\n"] ∧
      (OpenOCD.RunForTime envO ctx os sidO dO).2 = ["resume", "halt"]) := by
  constructor
  · intro hc
    constructor
    · simp [QEMU.RunForTime, QEMU.ResumeExecution, QEMU.ExecuteProgram, hq, hrq, hc]
    · simp [OpenOCD.RunForTime, OpenOCD.ResumeExecution, OpenOCD.sendTelnetCommand,
            ho, hro, hc]
  · intro hc
    constructor
    · cases hp : envQ sidQ "stop\n" <;>
        simp [QEMU.RunForTime, QEMU.ResumeExecution, QEMU.ExecuteProgram,
              QEMU.PauseExecution, hq, hrq, hc, hp]
    · cases hp : envO sidO "halt" <;>
        simp [OpenOCD.RunForTime, OpenOCD.ResumeExecution, OpenOCD.PauseExecution,
              OpenOCD.sendTelnetCommand, ho, hro, hc, hp]

/-- Witness for C10: cancelled run leaves only the resume command in the
trace; an uncancelled run appends the pause command. -/
theorem runForTime_cancel_skips_pause_witness :
    (QEMU.RunForTime monOk ctxCancelled demoAdpSessions "s1" 5).2 = ["cont\n"] ∧
    (OpenOCD.RunForTime monOk ctxLive demoAdpSessions "s1" 5).2 = ["resume", "halt"] :=
  ⟨((runForTime_cancel_skips_pause monOk monOk ctxCancelled
      demoAdpSessions demoAdpSessions "s1" "s1" 5 5
      { gdbPort := 1234, monitorPort := 4444 } { gdbPort := 1234, monitorPort := 4444 }
      rfl rfl rfl rfl).1 rfl).1,
   ((runForTime_cancel_skips_pause monOk monOk ctxLive
      demoAdpSessions demoAdpSessions "s1" "s1" 5 5
      { gdbPort := 1234, monitorPort := 4444 } { gdbPort := 1234, monitorPort := 4444 }
      rfl rfl rfl rfl).2 rfl).2⟩

/-! ### JSON round-trip helper lemmas -/

theorem unmarshal_marshal_peripheral (p : PeripheralConfig) :
    unmarshalPeripheral (marshalPeripheral p) = p := by
  obtain ⟨pt, nm, ad, irq⟩ := p
  by_cases h : irq = 0 <;>
    simp [marshalPeripheral, unmarshalPeripheral, jfield, mapFind?, jstrD, jnumD,
          jnatD, h, List.find?]

theorem unmarshal_marshal_region (r : MemoryRegion) :
    unmarshalRegion (some (marshalRegion r)) = r := by
  obtain ⟨b, s⟩ := r
  simp [marshalRegion, unmarshalRegion, ofield, jfield, mapFind?, jnumD, jnatD,
        List.find?]

theorem map_unmarshal_marshal (ps : List PeripheralConfig) :
    List.map (unmarshalPeripheral ∘ marshalPeripheral) ps = ps := by
  induction ps with
  | nil => rfl
  | cons p t ih => simp [Function.comp, unmarshal_marshal_peripheral, ih]

theorem unmarshal_marshal_board (c : BoardConfig) :
    unmarshalBoardConfig (marshalBoardConfig c) = c := by
  obtain ⟨b, ⟨pm, pf⟩, ⟨fl, ra⟩, ps⟩ := c
  by_cases hb : b = "" <;> by_cases hp : ps = [] <;>
    simp [marshalBoardConfig, unmarshalBoardConfig, marshalProcessor, marshalMemory,
          jfield, ofield, mapFind?, jstrD, jnumD, List.find?, hb, hp,
          unmarshal_marshal_region, unmarshal_marshal_peripheral, List.map_map,
          map_unmarshal_marshal]

/-! ### Service-level claim theorems -/

/-- Claim C1: a SyncStep call of count `steps` against a Running group
dispatches Step(`steps`) exactly once per member whose bound session
identifier resolves to a live session with a registered adapter (the trace
is exactly one Step call per such member, in member order; per-member
results are discarded), and — absent 64-bit overflow — the group's step
counter grows by exactly `steps` and its virtual time by exactly
`1000 * steps` nanoseconds, once per call, provided the final durable save
of the group record goes through (on save failure the source returns that
error with the durable counters unchanged). -/
theorem syncStep_dispatch_and_counters (env : Env) (svc : Svc) (gid : String)
    (steps : Int) (g : CoSimSession)
    (hg : mapFind? svc.cosims gid = some g)
    (hrun : g.status = "running")
    (hsave : env.dbSave gid = none)
    (h1 : -(2 ^ 63) ≤ steps * 1000) (h2 : steps * 1000 < 2 ^ 63)
    (h3 : -(2 ^ 63) ≤ g.syncCount + steps) (h4 : g.syncCount + steps < 2 ^ 63)
    (h5 : -(2 ^ 63) ≤ g.timeNS + steps * 1000) (h6 : g.timeNS + steps * 1000 < 2 ^ 63) :
    (SyncStep env svc gid steps).result = .ok () ∧
    (SyncStep env svc gid steps).trace =
      (boundTargets svc g.components).map
        (fun t => AdapterCall.mk "Step" t.1 t.2 steps) ∧
    mapFind? (SyncStep env svc gid steps).svc.cosims gid =
      some { g with syncCount := g.syncCount + steps,
                    timeNS := g.timeNS + 1000 * steps } := by
  have e1 : wrap64 (steps * 1000) = steps * 1000 := wrap64_eq_of_bounds _ h1 h2
  have e2 : wrap64 (g.syncCount + steps) = g.syncCount + steps :=
    wrap64_eq_of_bounds _ h3 h4
  have e3 : wrap64 (g.timeNS + steps * 1000) = g.timeNS + steps * 1000 :=
    wrap64_eq_of_bounds _ h5 h6
  refine ⟨?_, ?_, ?_⟩ <;>
    simp [SyncStep, hg, hrun, hsave, e1, e2, e3, mapFind?_insert_self, mul_comm]

/-- Witness for C1: the test-suite scenario — 100 steps against the demo
group dispatch one Step(100) to the single bound member and move the
counters to 100 steps and 100000 ns. -/
theorem syncStep_dispatch_and_counters_witness :
    (SyncStep envOk demoSvc "G" 100).result = .ok () ∧
    (SyncStep envOk demoSvc "G" 100).trace = [AdapterCall.mk "Step" "qemu" "A" 100] ∧
    mapFind? (SyncStep envOk demoSvc "G" 100).svc.cosims "G" =
      some { demoGroup with syncCount := 100, timeNS := 100000 } := by
  have h := syncStep_dispatch_and_counters envOk demoSvc "G" 100 demoGroup rfl rfl
    rfl (by decide) (by decide) (by decide) (by decide) (by decide) (by decide)
  exact ⟨h.1, by rw [h.2.1]; rfl, by rw [h.2.2]; rfl⟩

/-- Claim C6: a SyncTime call of duration `d` against a Running group
dispatches RunForTime(`d`) exactly once per member whose bound session
resolves to a live session with a registered adapter — all members are
dispatched unconditionally, so a failing member cancels no sibling; if any
member fails, the first reported error is returned and the stored group
(its virtual time included) is left unchanged; if all succeed and the
final durable save of the group record goes through (on save failure the
source returns that error with the durable counter unchanged), the group's
virtual time grows by exactly `d`, once per call. -/
theorem syncTime_dispatch_and_time (env : Env) (svc : Svc) (gid : String)
    (d : Int) (g : CoSimSession)
    (hg : mapFind? svc.cosims gid = some g)
    (hrun : g.status = "running")
    (hsave : env.dbSave gid = none)
    (hlo : -(2 ^ 63) ≤ g.timeNS + d) (hhi : g.timeNS + d < 2 ^ 63) :
    (SyncTime env svc gid d).trace =
      (boundTargets svc g.components).map
        (fun t => AdapterCall.mk "RunForTime" t.1 t.2 d) ∧
    (((boundTargets svc g.components).filterMap
        (fun t => env.runForTime t.1 t.2 d)).head? = none →
      (SyncTime env svc gid d).result = .ok () ∧
      mapFind? (SyncTime env svc gid d).svc.cosims gid =
        some { g with timeNS := g.timeNS + d }) ∧
    (∀ e, ((boundTargets svc g.components).filterMap
        (fun t => env.runForTime t.1 t.2 d)).head? = some e →
      (SyncTime env svc gid d).result = .error e ∧
      (SyncTime env svc gid d).svc = svc) := by
  have he : wrap64 (g.timeNS + d) = g.timeNS + d := wrap64_eq_of_bounds _ hlo hhi
  refine ⟨?_, ?_, ?_⟩
  · cases hh : ((boundTargets svc g.components).filterMap
        (fun t => env.runForTime t.1 t.2 d)).head? <;>
      simp [SyncTime, hg, hrun, hsave, hh]
  · intro hh
    simp [SyncTime, hg, hrun, hsave, hh, he, mapFind?_insert_self]
  · intro e hh
    simp [SyncTime, hg, hrun, hh]

/-- Witness for C6: with an all-success environment the demo group's time
advances by the duration; with a failing member environment the error is
surfaced and the state is untouched. -/
theorem syncTime_dispatch_and_time_witness :
    (SyncTime envOk demoSvc "G" 500).result = .ok () ∧
    mapFind? (SyncTime envOk demoSvc "G" 500).svc.cosims "G" =
      some { demoGroup with timeNS := 500 } ∧
    (SyncTime { envOk with runForTime := fun _ _ _ => some "boom" }
        demoSvc "G" 500).result = .error "boom" ∧
    (SyncTime { envOk with runForTime := fun _ _ _ => some "boom" }
        demoSvc "G" 500).svc = demoSvc := by
  have h1 := syncTime_dispatch_and_time envOk demoSvc "G" 500 demoGroup rfl rfl
    rfl (by decide) (by decide)
  have h2 := syncTime_dispatch_and_time
    { envOk with runForTime := fun _ _ _ => some "boom" } demoSvc "G" 500 demoGroup
    rfl rfl rfl (by decide) (by decide)
  exact ⟨(h1.2.1 rfl).1, (h1.2.1 rfl).2, (h2.2.2 "boom" rfl).1, (h2.2.2 "boom" rfl).2⟩

/-! ### Session-cap invariant helper lemmas -/

theorem createSession_cap_post (env : Env) (svc : Svc)
    (newID name backend : String) (cfg : Option BoardConfig)
    (h : svc.sessions.length ≤ svc.maxSessions) :
    (CreateSession env svc newID name backend cfg).svc.sessions.length ≤
      svc.maxSessions ∧
    (CreateSession env svc newID name backend cfg).svc.maxSessions =
      svc.maxSessions := by
  unfold CreateSession
  split
  · exact ⟨h, rfl⟩
  · next hcap =>
    split
    · split
      · exact ⟨h, rfl⟩
      · split
        · exact ⟨h, rfl⟩
        · refine ⟨?_, rfl⟩
          have hlt : svc.sessions.length < svc.maxSessions := Nat.lt_of_not_le hcap
          exact le_trans (length_mapInsert_le _ _ _) hlt
    · exact ⟨h, rfl⟩

theorem deleteSession_cap_post (env : Env) (svc : Svc) (sessionID : String) :
    (DeleteSession env svc sessionID).svc.sessions.length ≤
      svc.sessions.length ∧
    (DeleteSession env svc sessionID).svc.maxSessions = svc.maxSessions := by
  unfold DeleteSession deleteFromDB
  repeat' split
  all_goals first
    | exact ⟨le_refl _, rfl⟩
    | exact ⟨length_mapErase_le _ _, rfl⟩

theorem syncStep_cap_post (env : Env) (svc : Svc) (sessionID : String)
    (steps : Int) :
    (SyncStep env svc sessionID steps).svc.sessions = svc.sessions ∧
    (SyncStep env svc sessionID steps).svc.maxSessions = svc.maxSessions := by
  cases hm : mapFind? svc.cosims sessionID with
  | none => simp [SyncStep, hm]
  | some g =>
    by_cases hs : g.status = "running"
    · cases hv : env.dbSave sessionID <;> simp [SyncStep, hm, hs, hv]
    · simp [SyncStep, hm, hs]

theorem syncTime_cap_post (env : Env) (svc : Svc) (sessionID : String)
    (duration : Int) :
    (SyncTime env svc sessionID duration).svc.sessions = svc.sessions ∧
    (SyncTime env svc sessionID duration).svc.maxSessions = svc.maxSessions := by
  cases hm : mapFind? svc.cosims sessionID with
  | none => simp [SyncTime, hm]
  | some g =>
    by_cases hs : g.status = "running"
    · cases hh : ((boundTargets svc g.components).filterMap
          (fun t => env.runForTime t.1 t.2 duration)).head? with
      | some e => simp [SyncTime, hm, hs, hh]
      | none => cases hv : env.dbSave sessionID <;> simp [SyncTime, hm, hs, hh, hv]
    · simp [SyncTime, hm, hs]

theorem applyOp_cap_post (svc : Svc) (op : SvcOp)
    (h : svc.sessions.length ≤ svc.maxSessions) :
    (applyOp svc op).sessions.length ≤ svc.maxSessions ∧
    (applyOp svc op).maxSessions = svc.maxSessions := by
  cases op with
  | createOp env newID name backend cfg =>
    exact createSession_cap_post env svc newID name backend cfg h
  | deleteOp env sessionID =>
    have hd := deleteSession_cap_post env svc sessionID
    exact ⟨le_trans hd.1 h, hd.2⟩
  | stepOp env sessionID steps =>
    have hs := syncStep_cap_post env svc sessionID steps
    exact ⟨hs.1 ▸ h, hs.2⟩
  | timeOp env sessionID duration =>
    have hs := syncTime_cap_post env svc sessionID duration
    exact ⟨hs.1 ▸ h, hs.2⟩

/-- Claim C2: the in-memory index never exceeds the configured cap.  At
the cap, CreateSession refuses with the capacity error, dispatches no
adapter call and changes nothing; and along any sequence of state-touching
Service operations from a state within the cap — CreateSession being the
only one that grows the index — the index stays within the cap. -/
theorem session_cap_invariant :
    (∀ (env : Env) (svc : Svc) (newID name backend : String)
       (cfg : Option BoardConfig),
        svc.maxSessions ≤ svc.sessions.length →
        CreateSession env svc newID name backend cfg =
          ⟨.error "maximum number of sessions reached", svc, []⟩) ∧
    (∀ (svc : Svc) (ops : List SvcOp),
        svc.sessions.length ≤ svc.maxSessions →
        (runOps svc ops).sessions.length ≤ svc.maxSessions) := by
  constructor
  · intro env svc newID name backend cfg h
    simp [CreateSession, h]
  · intro svc ops h
    induction ops generalizing svc with
    | nil => simpa [runOps] using h
    | cons op rest ih =>
      have h1 := applyOp_cap_post svc op h
      have h2 := ih (applyOp svc op) (h1.2 ▸ h1.1)
      simpa [runOps, h1.2] using h2

/-- Witness for C2: the spec's capacity scenario — cap 1 with session `A`
live refuses a second create untouched, and any concrete operation
sequence from that state stays within the cap. -/
theorem session_cap_invariant_witness :
    CreateSession envOk demoSvcFull "B-id" "B" "qemu" none =
      ⟨.error "maximum number of sessions reached", demoSvcFull, []⟩ ∧
    (runOps demoSvcFull
      [SvcOp.createOp envOk "B-id" "B" "qemu" none,
       SvcOp.deleteOp envOk "A",
       SvcOp.createOp envOk "C-id" "C" "qemu" none]).sessions.length ≤ 1 :=
  ⟨session_cap_invariant.1 envOk demoSvcFull "B-id" "B" "qemu" none (by decide),
   session_cap_invariant.2 demoSvcFull
     [SvcOp.createOp envOk "B-id" "B" "qemu" none,
      SvcOp.deleteOp envOk "A",
      SvcOp.createOp envOk "C-id" "C" "qemu" none] (by decide)⟩

/-- Claim C3: a successful CreateSession with a non-nil board configuration
stores its serialization in the session record, and a subsequent GetSession
on the returned identifier yields a record whose board-configuration blob
deserializes back to the input configuration. -/
theorem createSession_get_roundtrip (env : Env) (svc : Svc)
    (newID name backend : String) (cfg : BoardConfig) (gp mp : Int)
    (hcap : svc.sessions.length < svc.maxSessions)
    (hadp : svc.adapters.contains backend = true)
    (hstart : env.startSession backend newID = .ok (gp, mp))
    (hdb : env.dbCreate newID = none) :
    ∃ r, GetSession (CreateSession env svc newID name backend (some cfg)).svc
          newID = .ok r ∧
      ∃ j, r.boardConfig = some j ∧ unmarshalBoardConfig j = cfg := by
  have hnot : ¬ svc.maxSessions ≤ svc.sessions.length := Nat.not_le.mpr hcap
  have hget : GetSession (CreateSession env svc newID name backend (some cfg)).svc
      newID =
      .ok { id := newID, name := name, backend := backend,
            boardConfig := some (marshalBoardConfig cfg),
            state := "running", gdbPort := gp, monitorPort := mp } := by
    have hmem : backend ∈ svc.adapters := by simpa using hadp
    simp [CreateSession, hnot, hmem, hstart, hdb, GetSession, mapFind?_insert_self]
  exact ⟨_, hget, marshalBoardConfig cfg, rfl, unmarshal_marshal_board cfg⟩

/-- Witness for C3 at the spec's round-trip scenario board. -/
theorem createSession_get_roundtrip_witness :
    ∃ r, GetSession (CreateSession envOk emptySvc "A" "test-session" "qemu"
          (some { board := "test-board",
                  processor := { model := "cortex-m3", frequency := 72000000 },
                  memory := { flash := { base := 134217728, size := 131072 },
                              ram := { base := 536870912, size := 20480 } },
                  peripherals := [] })).svc "A" = .ok r ∧
      ∃ j, r.boardConfig = some j ∧
        unmarshalBoardConfig j =
          { board := "test-board",
            processor := { model := "cortex-m3", frequency := 72000000 },
            memory := { flash := { base := 134217728, size := 131072 },
                        ram := { base := 536870912, size := 20480 } },
            peripherals := [] } :=
  createSession_get_roundtrip envOk emptySvc "A" "test-session" "qemu"
    { board := "test-board",
      processor := { model := "cortex-m3", frequency := 72000000 },
      memory := { flash := { base := 134217728, size := 131072 },
                  ram := { base := 536870912, size := 20480 } },
      peripherals := [] }
    1234 5678 (by decide) (by decide) rfl rfl

/-- Claim C7: a DeleteSession call that returns success has invoked the
owning adapter's StopSession whenever the session was in the in-memory
index (given the reachable-state invariant that indexed sessions have a
registered adapter), and afterwards the session is absent from both the
index and the durable store, so a GetSession on the identifier reports
the typed not-found error. -/
theorem deleteSession_removes_everywhere (env : Env) (svc : Svc) (sid : String)
    (hreg : ∀ s, mapFind? svc.sessions sid = some s →
      svc.adapters.contains s.backend = true)
    (hok : (DeleteSession env svc sid).result = .ok ()) :
    (∀ s, mapFind? svc.sessions sid = some s →
      AdapterCall.mk "StopSession" s.backend sid 0 ∈ (DeleteSession env svc sid).trace) ∧
    mapFind? (DeleteSession env svc sid).svc.sessions sid = none ∧
    mapFind? (DeleteSession env svc sid).svc.db sid = none ∧
    GetSession (DeleteSession env svc sid).svc sid =
      .error ("session not found: " ++ sid) := by
  cases hm : mapFind? svc.sessions sid with
  | none =>
    cases hd : env.dbDelete sid with
    | some e => simp [DeleteSession, deleteFromDB, hm, hd] at hok
    | none =>
      refine ⟨?_, ?_, ?_, ?_⟩
      · intro s hs
        cases hs
      all_goals
        simp [DeleteSession, deleteFromDB, GetSession, hm, hd, mapFind?_erase_self]
  | some sess =>
    have hc := hreg sess hm
    have hmem : sess.backend ∈ svc.adapters := by simpa using hc
    cases hstop : env.stopSession sess.backend sid with
    | some e => simp [DeleteSession, hm, hmem, hstop] at hok
    | none =>
      cases hd : env.dbDelete sid with
      | some e => simp [DeleteSession, deleteFromDB, hm, hmem, hstop, hd] at hok
      | none =>
        refine ⟨?_, ?_, ?_, ?_⟩
        · intro s hs
          cases hs
          simp [DeleteSession, deleteFromDB, hm, hmem, hstop, hd]
        all_goals
          simp [DeleteSession, deleteFromDB, GetSession, hm, hmem, hstop, hd,
                mapFind?_erase_self]

/-- Witness for C7: deleting the live demo session `A` stops it on its
adapter and leaves no trace of it in either store. -/
theorem deleteSession_removes_everywhere_witness :
    AdapterCall.mk "StopSession" "qemu" "A" 0 ∈ (DeleteSession envOk demoSvc "A").trace ∧
    mapFind? (DeleteSession envOk demoSvc "A").svc.sessions "A" = none ∧
    GetSession (DeleteSession envOk demoSvc "A").svc "A" =
      .error ("session not found: " ++ "A") := by
  have h := deleteSession_removes_everywhere envOk demoSvc "A"
    (fun s hs => by
      rw [show mapFind? demoSvc.sessions "A" = some demoSession from rfl] at hs
      cases hs
      rfl)
    rfl
  exact ⟨h.1 demoSession rfl, h.2.1, h.2.2.2⟩

/-- Claim C8: when the durable commit fails after a successful adapter
StartSession, CreateSession dispatches a best-effort StopSession, leaves
the service state (in-memory index included) unchanged, and surfaces the
original commit failure in its error. -/
theorem createSession_commit_compensation (env : Env) (svc : Svc)
    (newID name backend : String) (cfg : Option BoardConfig) (gp mp : Int)
    (e : GoErr)
    (hcap : svc.sessions.length < svc.maxSessions)
    (hadp : svc.adapters.contains backend = true)
    (hstart : env.startSession backend newID = .ok (gp, mp))
    (hdb : env.dbCreate newID = some e) :
    (CreateSession env svc newID name backend cfg).result =
      .error ("failed to save session: " ++ e) ∧
    (CreateSession env svc newID name backend cfg).svc = svc ∧
    (CreateSession env svc newID name backend cfg).trace =
      [AdapterCall.mk "StartSession" backend newID 0,
       AdapterCall.mk "StopSession" backend newID 0] := by
  have hnot : ¬ svc.maxSessions ≤ svc.sessions.length := Nat.not_le.mpr hcap
  have hmem : backend ∈ svc.adapters := by simpa using hadp
  refine ⟨?_, ?_, ?_⟩ <;> simp [CreateSession, hnot, hmem, hstart, hdb]

/-- Witness for C8: a failing durable commit after a successful start
compensates with StopSession and reports the commit failure. -/
theorem createSession_commit_compensation_witness :
    (CreateSession { envOk with dbCreate := fun _ => some "disk full" }
        emptySvc "A" "test-session" "qemu" none).result =
      .error ("failed to save session: " ++ "disk full") ∧
    (CreateSession { envOk with dbCreate := fun _ => some "disk full" }
        emptySvc "A" "test-session" "qemu" none).svc = emptySvc ∧
    (CreateSession { envOk with dbCreate := fun _ => some "disk full" }
        emptySvc "A" "test-session" "qemu" none).trace =
      [AdapterCall.mk "StartSession" "qemu" "A" 0,
       AdapterCall.mk "StopSession" "qemu" "A" 0] :=
  createSession_commit_compensation
    { envOk with dbCreate := fun _ => some "disk full" }
    emptySvc "A" "test-session" "qemu" none 1234 5678 "disk full"
    (by decide) (by decide) rfl rfl

end MachineServer
